import Mathlib

/-!
Shallow embedding of the `geode_faucet` ink! contract (src/lib.rs).

Modelling conventions:
* `AccountId` (`[u8; 32]`) is modelled as `Nat`; the all-zero id `[0x0; 32]` is `0`.
* `Vec<u8>` network addresses are `List Nat`.
* `Balance` (`u128`) and the `u128` counters are `Nat` with explicit saturating
  addition clamped at `2 ^ 128 - 1`; `u64` timestamps are `Nat` with explicit
  wrapping subtraction modulo `2 ^ 64`.
* ink's `Mapping` is an association list with last-write-wins insert.
* The ledger environment is passed explicitly: `caller`, `now`
  (`block_timestamp`), `balance` (the contract's own balance) and
  `transfer_ok : Bool`, the success flag the `env().transfer` primitive would
  report if invoked.
* Messages return the updated storage, the Rust return value, and the list of
  `PayoutEvent`s emitted during the call.
-/

namespace GeodeFaucet

/-- 32-byte account identifiers, as naturals; `AccountId::from([0x0; 32])` is `0`. -/
abbrev AccountId := Nat

/-- Client-supplied network address bytes (`Vec<u8>` in the source). -/
abbrev IpAddress := List Nat

/-- Modulus of the `u64` type. -/
def U64_MOD : Nat := 2 ^ 64

/-- Largest representable `u128` value, the clamp of saturating addition. -/
def U128_MAX : Nat := 2 ^ 128 - 1

/-- `u64` wrapping subtraction `a.wrapping_sub(b)`. -/
def wrappingSub64 (a b : Nat) : Nat :=
  (a % U64_MOD + U64_MOD - b % U64_MOD) % U64_MOD

/-- `u128` saturating addition `a.saturating_add(b)`. -/
def satAdd128 (a b : Nat) : Nat :=
  min (a + b) U128_MAX

/-- The per-account record (`struct Pebble` in the source). -/
structure Pebble where
  timestamp : Nat
  ip_address : IpAddress
  pebble : AccountId
  payout : Nat
deriving DecidableEq

/-- `Default for Pebble`: zero timestamp, empty address, zero account, zero payout. -/
def Pebble.default : Pebble :=
  { timestamp := 0, ip_address := [], pebble := 0, payout := 0 }

/-- The contract's error type. -/
inductive Error where
  | PermissionDenied
  | PayoutFailed
deriving DecidableEq

/-- A `PayoutEvent` as emitted by the contract. -/
structure PayoutEvent where
  timestamp : Nat
  user_ip : IpAddress
  pebble : AccountId
  payout : Nat
deriving DecidableEq

/-- Association-list lookup, modelling `Mapping::get`. -/
def alGet {α β : Type} [DecidableEq α] : List (α × β) → α → Option β
  | [], _ => none
  | (k, v) :: t, a => if k = a then some v else alGet t a

/-- Association-list insert, modelling `Mapping::insert` (overwrite or add). -/
def alInsert {α β : Type} [DecidableEq α] : List (α × β) → α → β → List (α × β)
  | [], a, b => [(a, b)]
  | (k, v) :: t, a, b => if k = a then (a, b) :: t else (k, v) :: alInsert t a b

/-- `Mapping::contains`. -/
def alContains {α β : Type} [DecidableEq α] (m : List (α × β)) (a : α) : Bool :=
  (alGet m a).isSome

/-- The contract storage (`struct ContractStorage`). -/
structure ContractStorage where
  user_map : List (AccountId × Pebble)
  ipaddress_count : List (IpAddress × List AccountId)
  root : AccountId
  rootset : Nat
  eligible_payout : Nat
  get_payout : Nat
  limit_timer : Nat
  limit_ip_total : Nat
  total_pebble_accounts : Nat
  total_payouts : Nat
deriving DecidableEq

/-- The constructor `new()`: empty maps, zero root, zero settings and counters. -/
def ContractStorage.new : ContractStorage :=
  { user_map := []
  , ipaddress_count := []
  , root := 0
  , rootset := 0
  , eligible_payout := 0
  , get_payout := 0
  , limit_timer := 0
  , limit_ip_total := 0
  , total_pebble_accounts := 0
  , total_payouts := 0 }

/-- The eligibility test as written in `check_eligibility` (lib.rs lines 189-190):
the address tag set is below the cap or already holds the caller, and either
enough time has passed since the last claim or the user has payout `== 0`. -/
def check_eligible (s : ContractStorage) (caller : AccountId) (now : Nat)
    (my_ip : IpAddress) : Bool :=
  let user_details := (alGet s.user_map caller).getD Pebble.default
  let time_since := wrappingSub64 now user_details.timestamp
  let ip_tags := (alGet s.ipaddress_count my_ip).getD []
  let ip_tags_len := ip_tags.length
  (decide (ip_tags_len < s.limit_ip_total) || decide (caller ∈ ip_tags)) &&
    (decide (time_since ≥ s.limit_timer) || decide (user_details.payout = 0))

/-- The eligibility test as written in `get_coin` (lib.rs lines 239-240): same
clauses, with the never-paid branch phrased `payout < 1`. -/
def claim_eligible (s : ContractStorage) (caller : AccountId) (now : Nat)
    (my_ip : IpAddress) : Bool :=
  let user_details := (alGet s.user_map caller).getD Pebble.default
  let time_since := wrappingSub64 now user_details.timestamp
  let ip_tags := (alGet s.ipaddress_count my_ip).getD []
  let ip_tags_len := ip_tags.length
  (decide (ip_tags_len < s.limit_ip_total) || decide (caller ∈ ip_tags)) &&
    (decide (time_since ≥ s.limit_timer) || decide (user_details.payout < 1))

/-- Message `set_root_account(new_root)`. -/
def set_root_account (s : ContractStorage) (caller new_root : AccountId) :
    ContractStorage × Except Error Unit :=
  if s.rootset ≠ 1 ∨ s.root = caller then
    ({ s with root := new_root, rootset := 1 }, Except.ok ())
  else
    (s, Except.error Error.PermissionDenied)

/-- Message `set_payouts_and_fund(...)` (payable; attached value only raises the
contract balance, which lives outside storage). -/
def set_payouts_and_fund (s : ContractStorage) (caller : AccountId)
    (new_eligible_payout new_get_payout new_limit_timer new_limit_ip_total : Nat) :
    ContractStorage × Except Error Unit :=
  if s.root = caller then
    ({ s with
        eligible_payout := new_eligible_payout
      , get_payout := new_get_payout
      , limit_timer := new_limit_timer
      , limit_ip_total := new_limit_ip_total }, Except.ok ())
  else
    (s, Except.error Error.PermissionDenied)

/-- Message `check_eligibility(my_ip_address)` (`&self`: storage is read-only;
the returned storage component records that nothing changed). Returns the `u8`
status and the emitted events. The transfer is attempted only when the contract
balance strictly exceeds `eligible_payout`; a failed transfer turns the result
from 1 into 2; the event always carries the nominal `eligible_payout`. -/
def check_eligibility (s : ContractStorage) (caller : AccountId)
    (now balance : Nat) (transfer_ok : Bool) (my_ip : IpAddress) :
    ContractStorage × Nat × List PayoutEvent :=
  if check_eligible s caller now my_ip then
    let result : Nat :=
      if balance > s.eligible_payout && !transfer_ok then 2 else 1
    (s, result, [{ timestamp := now, user_ip := my_ip, pebble := caller
                 , payout := s.eligible_payout }])
  else
    (s, 0, [])

/-- Message `get_coin(my_ip_address)`: claim evaluation, transfer attempt behind
the balance floor, then record update, tag-set append, counter updates and the
payout event. -/
def get_coin (s : ContractStorage) (caller : AccountId) (now balance : Nat)
    (transfer_ok : Bool) (my_ip : IpAddress) :
    ContractStorage × Except Error Unit × List PayoutEvent :=
  let newuser : Nat := if alContains s.user_map caller then 0 else 1
  let user_details := (alGet s.user_map caller).getD Pebble.default
  let ip_tags := (alGet s.ipaddress_count my_ip).getD []
  if claim_eligible s caller now my_ip then
    if balance > s.get_payout && !transfer_ok then
      (s, Except.error Error.PayoutFailed, [])
    else
      let ud : Pebble :=
        { timestamp := now
        , ip_address := my_ip
        , pebble := caller
        , payout := satAdd128 user_details.payout s.get_payout }
      let s1 := { s with user_map := alInsert s.user_map caller ud }
      let s2 :=
        if decide (caller ∈ ip_tags) then s1
        else { s1 with
                ipaddress_count := alInsert s1.ipaddress_count my_ip (ip_tags ++ [caller]) }
      let s3 := { s2 with total_payouts := satAdd128 s2.total_payouts s.get_payout }
      let s4 :=
        if newuser = 1 then
          { s3 with total_pebble_accounts := satAdd128 s3.total_pebble_accounts 1 }
        else s3
      (s4, Except.ok (), [{ timestamp := now, user_ip := my_ip, pebble := caller
                          , payout := s.get_payout }])
  else
    (s, Except.error Error.PermissionDenied, [])

/-- Message `verify_account(verify)`: 1 if the account has a record, else 0. -/
def verify_account (s : ContractStorage) (verify : AccountId) : Nat :=
  if alContains s.user_map verify then 1 else 0

/-! ### Helper lemmas about the association-list map model -/

theorem alGet_alInsert_self {α β : Type} [DecidableEq α]
    (m : List (α × β)) (k : α) (v : β) : alGet (alInsert m k v) k = some v := by
  induction m with
  | nil => simp [alInsert, alGet]
  | cons hd tl ih =>
    obtain ⟨k', v'⟩ := hd
    by_cases h : k' = k <;> simp [alInsert, alGet, h, ih]

theorem alContains_alInsert_self {α β : Type} [DecidableEq α]
    (m : List (α × β)) (k : α) (v : β) : alContains (alInsert m k v) k = true := by
  simp [alContains, alGet_alInsert_self]

/-! ### Characterization of the three `get_coin` outcomes -/

theorem get_coin_denied (s : ContractStorage) (caller : AccountId)
    (now balance : Nat) (tok : Bool) (ip : IpAddress)
    (h : claim_eligible s caller now ip = false) :
    get_coin s caller now balance tok ip = (s, Except.error Error.PermissionDenied, []) := by
  unfold get_coin
  simp [h]

theorem get_coin_transfer_failed (s : ContractStorage) (caller : AccountId)
    (now balance : Nat) (ip : IpAddress)
    (h : claim_eligible s caller now ip = true) (hb : balance > s.get_payout) :
    get_coin s caller now balance false ip = (s, Except.error Error.PayoutFailed, []) := by
  unfold get_coin
  simp [h, hb]

theorem get_coin_success (s : ContractStorage) (caller : AccountId)
    (now balance : Nat) (tok : Bool) (ip : IpAddress)
    (h : claim_eligible s caller now ip = true)
    (hb : balance ≤ s.get_payout ∨ tok = true) :
    get_coin s caller now balance tok ip =
      ({ user_map := alInsert s.user_map caller
            { timestamp := now, ip_address := ip, pebble := caller
            , payout := satAdd128 ((alGet s.user_map caller).getD Pebble.default).payout
                s.get_payout }
       , ipaddress_count :=
           (if caller ∈ (alGet s.ipaddress_count ip).getD [] then s.ipaddress_count
            else alInsert s.ipaddress_count ip
              (((alGet s.ipaddress_count ip).getD []) ++ [caller]))
       , root := s.root
       , rootset := s.rootset
       , eligible_payout := s.eligible_payout
       , get_payout := s.get_payout
       , limit_timer := s.limit_timer
       , limit_ip_total := s.limit_ip_total
       , total_pebble_accounts :=
           (if alContains s.user_map caller then s.total_pebble_accounts
            else satAdd128 s.total_pebble_accounts 1)
       , total_payouts := satAdd128 s.total_payouts s.get_payout }
      , Except.ok ()
      , [{ timestamp := now, user_ip := ip, pebble := caller, payout := s.get_payout }]) := by
  have hcond : (decide (balance > s.get_payout) && !tok) = false := by
    rcases hb with hb | hb
    · simp [Nat.not_lt.mpr hb]
    · simp [hb]
  unfold get_coin
  simp only [h, if_true, hcond, Bool.false_eq_true, if_false]
  by_cases hc : alContains s.user_map caller <;>
    by_cases hm : caller ∈ (alGet s.ipaddress_count ip).getD [] <;>
      simp [hc, hm]

/-! ### Claims -/

/-- Claim C1: `check_eligibility` returns 0 iff the eligibility predicate is
false; it returns 2 iff the predicate holds, the contract balance strictly
exceeds `eligible_payout`, and the transfer fails; and it returns 1 in every
other case where the predicate holds (transfer succeeded or was skipped for
insufficient balance). -/
theorem geode_C1 (s : ContractStorage) (caller : AccountId) (now balance : Nat)
    (tok : Bool) (ip : IpAddress) :
    ((check_eligibility s caller now balance tok ip).2.1 = 0 ↔
      check_eligible s caller now ip = false)
    ∧ ((check_eligibility s caller now balance tok ip).2.1 = 2 ↔
      check_eligible s caller now ip = true ∧ balance > s.eligible_payout ∧ tok = false)
    ∧ ((check_eligibility s caller now balance tok ip).2.1 = 1 ↔
      check_eligible s caller now ip = true ∧ (tok = true ∨ ¬ balance > s.eligible_payout)) := by
  unfold check_eligibility
  by_cases h : check_eligible s caller now ip <;>
    by_cases hb : balance > s.eligible_payout <;> cases tok <;> simp [h, hb]

/-- Claim C6: the eligibility decision used by `get_coin` (testing
`payout < 1`) coincides with the one used by `check_eligibility` (testing
`payout == 0`) on every input; consequently `get_coin` denies with
`PermissionDenied` exactly when `check_eligibility`'s predicate is false. -/
theorem geode_C6 (s : ContractStorage) (caller : AccountId) (now balance : Nat)
    (tok : Bool) (ip : IpAddress) :
    check_eligible s caller now ip = claim_eligible s caller now ip
    ∧ ((get_coin s caller now balance tok ip).2.1 = Except.error Error.PermissionDenied ↔
      check_eligible s caller now ip = false) := by
  have hpred : check_eligible s caller now ip = claim_eligible s caller now ip := by
    simp [check_eligible, claim_eligible, Nat.lt_one_iff]
  refine ⟨hpred, ?_⟩
  rw [hpred]
  unfold get_coin
  by_cases h : claim_eligible s caller now ip
  · simp only [h, if_true]
    split <;> simp
  · simp [h]

/-- Claim C9: `check_eligibility` never mutates contract storage, and it emits
exactly one payout notification carrying the nominal `eligible_payout` iff its
eligibility predicate holds (even when the transfer failed or was skipped); no
notification is emitted when the predicate is false. -/
theorem geode_C9 (s : ContractStorage) (caller : AccountId) (now balance : Nat)
    (tok : Bool) (ip : IpAddress) :
    (check_eligibility s caller now balance tok ip).1 = s
    ∧ (check_eligibility s caller now balance tok ip).2.2 =
      (if check_eligible s caller now ip then
        [{ timestamp := now, user_ip := ip, pebble := caller
         , payout := s.eligible_payout }]
      else []) := by
  unfold check_eligibility
  by_cases h : check_eligible s caller now ip <;> simp [h]

/-- Claim C2 counterexample: in the freshly constructed contract the account 5
has no record, yet its first `get_coin` call is denied (the constructor leaves
`limit_ip_total = 0`, so the address-cap clause fails), refuting the claim that
a first call always succeeds. -/
theorem geode_C2_cex :
    alGet ContractStorage.new.user_map 5 = none
    ∧ (get_coin ContractStorage.new 5 0 0 true []).2.1 =
        Except.error Error.PermissionDenied :=
  ⟨rfl, rfl⟩

/-- Claim C2 (amended): for an account with no record, a first `get_coin` call
succeeds regardless of elapsed time and of `limit_timer`, provided the
address-cap clause holds (tag set below the cap or caller already tagged) and
the transfer does not fail; `verify_account` returns 0 before the call and 1
after it. -/
theorem geode_C2_amended (s : ContractStorage) (caller : AccountId)
    (now balance : Nat) (tok : Bool) (ip : IpAddress)
    (hno : alGet s.user_map caller = none)
    (hcap : ((alGet s.ipaddress_count ip).getD []).length < s.limit_ip_total ∨
      caller ∈ (alGet s.ipaddress_count ip).getD [])
    (htr : balance ≤ s.get_payout ∨ tok = true) :
    (get_coin s caller now balance tok ip).2.1 = Except.ok ()
    ∧ verify_account s caller = 0
    ∧ verify_account (get_coin s caller now balance tok ip).1 caller = 1 := by
  have h : claim_eligible s caller now ip = true := by
    unfold claim_eligible
    rcases hcap with hcap | hcap <;> simp [hno, Pebble.default, hcap]
  rw [get_coin_success s caller now balance tok ip h htr]
  refine ⟨rfl, ?_, ?_⟩
  · simp [verify_account, alContains, hno]
  · simp [verify_account, alContains_alInsert_self]

/-- Claim C2 witness: a concrete first claim that the amended statement covers. -/
theorem geode_C2_witness :
    (get_coin { ContractStorage.new with limit_ip_total := 1 } 5 0 0 true [2]).2.1 =
      Except.ok ()
    ∧ verify_account { ContractStorage.new with limit_ip_total := 1 } 5 = 0
    ∧ verify_account
        (get_coin { ContractStorage.new with limit_ip_total := 1 } 5 0 0 true [2]).1 5 = 1 :=
  geode_C2_amended { ContractStorage.new with limit_ip_total := 1 } 5 0 0 true [2]
    rfl (Or.inl (by decide)) (Or.inr rfl)

/-- A state in which account 7 has already been paid (payout 5 at time 100) and
is tagged on address `[1]`, with a 1000-unit cooldown window and cap 1. -/
def c3state : ContractStorage :=
  { user_map := [(7, { timestamp := 100, ip_address := [1], pebble := 7, payout := 5 })]
  , ipaddress_count := [([1], [7])]
  , root := 0
  , rootset := 1
  , eligible_payout := 0
  , get_payout := 10
  , limit_timer := 1000
  , limit_ip_total := 1
  , total_pebble_accounts := 1
  , total_payouts := 5 }

/-- Claim C3 counterexample: account 7 has claimed before (payout 5 > 0), calls
again at time 150 with wrapping elapsed time 50 < 1000, and is already in the
tag set of address `[1]` — the claim predicts success, but `get_coin` returns
`PermissionDenied`: the tag-set clauses cannot rescue a cooldown violation. -/
theorem geode_C3_cex :
    0 < ((alGet c3state.user_map 7).getD Pebble.default).payout
    ∧ wrappingSub64 150 ((alGet c3state.user_map 7).getD Pebble.default).timestamp <
        c3state.limit_timer
    ∧ 7 ∈ (alGet c3state.ipaddress_count [1]).getD []
    ∧ (get_coin c3state 7 150 1000 true [1]).2.1 = Except.error Error.PermissionDenied :=
  ⟨by decide, by decide, by decide, rfl⟩

/-- Claim C3 (amended): for an account that has previously been paid
(`payout > 0`), a `get_coin` call at a time whose wrapping difference from the
record's timestamp is strictly below `limit_timer` fails with
`PermissionDenied` and changes nothing — unconditionally, even when the tag set
already contains the account or its size is below the cap. -/
theorem geode_C3_amended (s : ContractStorage) (caller : AccountId)
    (now balance : Nat) (tok : Bool) (ip : IpAddress)
    (hpaid : 0 < ((alGet s.user_map caller).getD Pebble.default).payout)
    (htime : wrappingSub64 now ((alGet s.user_map caller).getD Pebble.default).timestamp <
      s.limit_timer) :
    get_coin s caller now balance tok ip = (s, Except.error Error.PermissionDenied, []) := by
  apply get_coin_denied
  unfold claim_eligible
  simp [Nat.not_le.mpr htime, Nat.lt_one_iff, Nat.pos_iff_ne_zero.mp hpaid]

/-- Claim C3 witness: the amended statement at the concrete state `c3state`. -/
theorem geode_C3_witness :
    get_coin c3state 7 150 1000 true [1] = (c3state, Except.error Error.PermissionDenied, []) :=
  geode_C3_amended c3state 7 150 1000 true [1] (by decide) (by decide)

/-- Claim C4: `get_coin` leaves the whole storage unchanged on every error —
`PermissionDenied` on DENY, `PayoutFailed` when eligible with balance strictly
above `get_payout` and a failing transfer — while an eligible call whose
balance does not strictly exceed `get_payout` skips the transfer yet still
performs the bookkeeping, emits the notification and returns success. -/
theorem geode_C4 (s : ContractStorage) (caller : AccountId) (now balance : Nat)
    (tok : Bool) (ip : IpAddress) :
    (claim_eligible s caller now ip = false →
      get_coin s caller now balance tok ip = (s, Except.error Error.PermissionDenied, []))
    ∧ (claim_eligible s caller now ip = true → balance > s.get_payout → tok = false →
      get_coin s caller now balance tok ip = (s, Except.error Error.PayoutFailed, []))
    ∧ (claim_eligible s caller now ip = true → ¬ balance > s.get_payout →
      (get_coin s caller now balance tok ip).2.1 = Except.ok ()
      ∧ (get_coin s caller now balance tok ip).2.2 =
          [{ timestamp := now, user_ip := ip, pebble := caller, payout := s.get_payout }]
      ∧ alGet (get_coin s caller now balance tok ip).1.user_map caller =
          some { timestamp := now, ip_address := ip, pebble := caller
               , payout := satAdd128 ((alGet s.user_map caller).getD Pebble.default).payout
                   s.get_payout }
      ∧ (get_coin s caller now balance tok ip).1.total_payouts =
          satAdd128 s.total_payouts s.get_payout) := by
  refine ⟨fun h => get_coin_denied s caller now balance tok ip h, ?_, ?_⟩
  · intro h hb ht
    subst ht
    exact get_coin_transfer_failed s caller now balance ip h hb
  · intro h hb
    rw [get_coin_success s caller now balance tok ip h (Or.inl (Nat.not_lt.mp hb))]
    exact ⟨rfl, rfl, alGet_alInsert_self _ _ _, rfl⟩

/-- A fresh contract whose address cap admits one account per address. -/
def c4state : ContractStorage := { ContractStorage.new with limit_ip_total := 1 }

/-- Claim C4 witness: the three branches at concrete inputs — a denied call, an
eligible call with a failing transfer, and an eligible call whose balance does
not exceed `get_payout`. -/
theorem geode_C4_witness :
    get_coin ContractStorage.new 5 0 0 true [] =
      (ContractStorage.new, Except.error Error.PermissionDenied, [])
    ∧ get_coin c4state 5 0 7 false [2] = (c4state, Except.error Error.PayoutFailed, [])
    ∧ ((get_coin c4state 5 0 0 false [2]).2.1 = Except.ok ()
      ∧ (get_coin c4state 5 0 0 false [2]).2.2 =
          [{ timestamp := 0, user_ip := [2], pebble := 5, payout := c4state.get_payout }]
      ∧ alGet (get_coin c4state 5 0 0 false [2]).1.user_map 5 =
          some { timestamp := 0, ip_address := [2], pebble := 5
               , payout := satAdd128 ((alGet c4state.user_map 5).getD Pebble.default).payout
                   c4state.get_payout }
      ∧ (get_coin c4state 5 0 0 false [2]).1.total_payouts =
          satAdd128 c4state.total_payouts c4state.get_payout) :=
  ⟨(geode_C4 ContractStorage.new 5 0 0 true []).1 (by decide),
   (geode_C4 c4state 5 0 7 false [2]).2.1 (by decide) (by decide) rfl,
   (geode_C4 c4state 5 0 0 false [2]).2.2 (by decide) (by decide)⟩

/-- Claim C5: on every successful `get_coin` call the caller's record is
overwritten (payout saturating-added, address and timestamp refreshed), the
caller is appended to the address's tag set iff not already present (so a
duplicate-free tag set stays duplicate-free), `total_payouts` is
saturating-added `get_payout`, `total_pebble_accounts` grows by one iff the
caller had no record, and one payout event carrying `get_payout` is emitted. -/
theorem geode_C5 (s : ContractStorage) (caller : AccountId) (now balance : Nat)
    (tok : Bool) (ip : IpAddress)
    (h : (get_coin s caller now balance tok ip).2.1 = Except.ok ()) :
    alGet (get_coin s caller now balance tok ip).1.user_map caller =
      some { timestamp := now, ip_address := ip, pebble := caller
           , payout := satAdd128 ((alGet s.user_map caller).getD Pebble.default).payout
               s.get_payout }
    ∧ (alGet (get_coin s caller now balance tok ip).1.ipaddress_count ip).getD [] =
        (if caller ∈ (alGet s.ipaddress_count ip).getD []
         then (alGet s.ipaddress_count ip).getD []
         else (alGet s.ipaddress_count ip).getD [] ++ [caller])
    ∧ (((alGet s.ipaddress_count ip).getD []).Nodup →
        ((alGet (get_coin s caller now balance tok ip).1.ipaddress_count ip).getD []).Nodup)
    ∧ (get_coin s caller now balance tok ip).1.total_payouts =
        satAdd128 s.total_payouts s.get_payout
    ∧ (get_coin s caller now balance tok ip).1.total_pebble_accounts =
        (if alContains s.user_map caller then s.total_pebble_accounts
         else satAdd128 s.total_pebble_accounts 1)
    ∧ (get_coin s caller now balance tok ip).2.2 =
        [{ timestamp := now, user_ip := ip, pebble := caller, payout := s.get_payout }] := by
  have helig : claim_eligible s caller now ip = true := by
    by_cases he : claim_eligible s caller now ip
    · exact he
    · rw [get_coin_denied s caller now balance tok ip (by simpa using he)] at h
      simp at h
  have hb : balance ≤ s.get_payout ∨ tok = true := by
    by_cases hbb : balance > s.get_payout
    · cases tok with
      | false =>
        rw [get_coin_transfer_failed s caller now balance ip helig hbb] at h
        simp at h
      | true => exact Or.inr rfl
    · exact Or.inl (Nat.not_lt.mp hbb)
  rw [get_coin_success s caller now balance tok ip helig hb]
  refine ⟨alGet_alInsert_self _ _ _, ?_, ?_, rfl, rfl, rfl⟩
  · by_cases hm : caller ∈ (alGet s.ipaddress_count ip).getD [] <;>
      simp [hm, alGet_alInsert_self]
  · intro hnd
    by_cases hm : caller ∈ (alGet s.ipaddress_count ip).getD [] <;>
      simp [hm, alGet_alInsert_self, List.nodup_append, hnd]

/-- A fresh contract with an address cap of one, for exercising a successful claim. -/
def c5state : ContractStorage := { ContractStorage.new with limit_ip_total := 1 }

/-- Claim C5 witness: the bookkeeping facts at a concrete successful claim. -/
theorem geode_C5_witness :
    alGet (get_coin c5state 5 3 0 true [2]).1.user_map 5 =
      some { timestamp := 3, ip_address := [2], pebble := 5
           , payout := satAdd128 ((alGet c5state.user_map 5).getD Pebble.default).payout
               c5state.get_payout }
    ∧ (alGet (get_coin c5state 5 3 0 true [2]).1.ipaddress_count [2]).getD [] =
        (if 5 ∈ (alGet c5state.ipaddress_count [2]).getD []
         then (alGet c5state.ipaddress_count [2]).getD []
         else (alGet c5state.ipaddress_count [2]).getD [] ++ [5])
    ∧ (((alGet c5state.ipaddress_count [2]).getD []).Nodup →
        ((alGet (get_coin c5state 5 3 0 true [2]).1.ipaddress_count [2]).getD []).Nodup)
    ∧ (get_coin c5state 5 3 0 true [2]).1.total_payouts =
        satAdd128 c5state.total_payouts c5state.get_payout
    ∧ (get_coin c5state 5 3 0 true [2]).1.total_pebble_accounts =
        (if alContains c5state.user_map 5 then c5state.total_pebble_accounts
         else satAdd128 c5state.total_pebble_accounts 1)
    ∧ (get_coin c5state 5 3 0 true [2]).2.2 =
        [{ timestamp := 3, user_ip := [2], pebble := 5, payout := c5state.get_payout }] :=
  geode_C5 c5state 5 3 0 true [2] rfl

/-- Claim C7: `set_root_account` installs the proposed root and marks the
settings as set iff the root is not yet marked set or the caller is the current
root (allowing idempotent re-assignment and rotation); otherwise it returns
`PermissionDenied` and the root and flag are unchanged. -/
theorem geode_C7 (s : ContractStorage) (caller new_root : AccountId) :
    ((s.rootset ≠ 1 ∨ s.root = caller) →
      set_root_account s caller new_root =
        ({ s with root := new_root, rootset := 1 }, Except.ok ()))
    ∧ (¬ (s.rootset ≠ 1 ∨ s.root = caller) →
      set_root_account s caller new_root = (s, Except.error Error.PermissionDenied)) := by
  refine ⟨fun h => ?_, fun h => ?_⟩
  · unfold set_root_account
    rw [if_pos h]
  · unfold set_root_account
    rw [if_neg h]

/-- Claim C7 witness: a first-time assignment succeeds, and a non-root caller
is rejected once the root is set. -/
theorem geode_C7_witness :
    set_root_account ContractStorage.new 7 9 =
      ({ ContractStorage.new with root := 9, rootset := 1 }, Except.ok ())
    ∧ set_root_account { ContractStorage.new with root := 4, rootset := 1 } 7 9 =
      ({ ContractStorage.new with root := 4, rootset := 1 }, Except.error Error.PermissionDenied) :=
  ⟨(geode_C7 ContractStorage.new 7 9).1 (Or.inl (by decide)),
   (geode_C7 { ContractStorage.new with root := 4, rootset := 1 } 7 9).2 (by decide)⟩

/-- Claim C8: `set_payouts_and_fund` from a caller other than the stored root
fails with `PermissionDenied` and changes nothing; from the root it overwrites
exactly the four settings with the supplied values, unconditionally, leaving
every other storage field unchanged. -/
theorem geode_C8 (s : ContractStorage) (caller : AccountId) (nel ngp nlt nli : Nat) :
    (caller ≠ s.root →
      set_payouts_and_fund s caller nel ngp nlt nli =
        (s, Except.error Error.PermissionDenied))
    ∧ (caller = s.root →
      set_payouts_and_fund s caller nel ngp nlt nli =
        ({ s with
            eligible_payout := nel
          , get_payout := ngp
          , limit_timer := nlt
          , limit_ip_total := nli }, Except.ok ())) := by
  refine ⟨fun h => ?_, fun h => ?_⟩
  · unfold set_payouts_and_fund
    rw [if_neg (fun hc => h hc.symm)]
  · unfold set_payouts_and_fund
    rw [if_pos h.symm]

/-- A contract whose root has been fixed to account 4. -/
def c8state : ContractStorage := { ContractStorage.new with root := 4, rootset := 1 }

/-- Claim C8 witness: a non-root caller is rejected and the root caller
overwrites the four settings. -/
theorem geode_C8_witness :
    set_payouts_and_fund c8state 7 1 2 3 4 = (c8state, Except.error Error.PermissionDenied)
    ∧ set_payouts_and_fund c8state 4 1 2 3 4 =
        ({ c8state with
            eligible_payout := 1
          , get_payout := 2
          , limit_timer := 3
          , limit_ip_total := 4 }, Except.ok ()) :=
  ⟨(geode_C8 c8state 7 1 2 3 4).1 (by decide),
   (geode_C8 c8state 4 1 2 3 4).2 (by decide)⟩

/-- Claim C10: the constructor leaves the root at the all-zero account with the
set-flag 0; hence in any state with a zero root every non-zero caller's
`set_payouts_and_fund` is rejected with no mutation, while in any state with
the set-flag 0 `set_root_account` succeeds for every caller whatsoever. -/
theorem geode_C10 :
    (ContractStorage.new.root = 0 ∧ ContractStorage.new.rootset = 0)
    ∧ (∀ s : ContractStorage, s.root = 0 → ∀ caller : AccountId, caller ≠ 0 →
        ∀ nel ngp nlt nli : Nat,
        set_payouts_and_fund s caller nel ngp nlt nli =
          (s, Except.error Error.PermissionDenied))
    ∧ (∀ s : ContractStorage, s.rootset = 0 → ∀ caller new_root : AccountId,
        (set_root_account s caller new_root).2 = Except.ok ()) := by
  refine ⟨⟨rfl, rfl⟩, ?_, ?_⟩
  · intro s hroot caller hc nel ngp nlt nli
    unfold set_payouts_and_fund
    rw [if_neg (fun h => hc (by rw [← h, hroot]))]
  · intro s hset caller new_root
    unfold set_root_account
    rw [if_pos (Or.inl (by rw [hset]; decide))]

/-- Claim C10 witness: in the fresh contract a non-zero caller cannot configure
payouts, but any caller can claim the root slot. -/
theorem geode_C10_witness :
    set_payouts_and_fund ContractStorage.new 3 1 2 3 4 =
      (ContractStorage.new, Except.error Error.PermissionDenied)
    ∧ (set_root_account ContractStorage.new 3 9).2 = Except.ok () :=
  ⟨geode_C10.2.1 ContractStorage.new rfl 3 (by decide) 1 2 3 4,
   geode_C10.2.2 ContractStorage.new rfl 3 9⟩

end GeodeFaucet
